import Mathlib

/-!
Verification of the `asad` utility repository: a shallow embedding of
`src/exceptions/exception.py` (the `CustomException` error wrapper),
`src/logging_core/logger.py` (the `LoggerFactory` caching logger factory)
and `src/utils/main_utils.py` (the file-operation helpers), together with
theorems settling the specification claims about them.

Python exceptions are modelled as values of an error type carried in
`Except`; the filesystem is modelled as an explicit state record threaded
through every operation, so that side effects performed before a failure
are visible in the returned state, exactly as they persist in Python.
-/

set_option autoImplicit false

/-- Native Python error kinds that arise in this repository (the
`FileNotFoundError`, `ValueError`, `TypeError`, `FileExistsError` raised by
the helpers themselves, and the failures of the yaml / pickle / dill /
numpy libraries and of `open`). -/
inductive PyError where
  | fileNotFound (msg : String)
  | valueError (msg : String)
  | typeError (msg : String)
  | fileExists (msg : String)
  | yamlError (msg : String)
  | representerError (msg : String)
  | pickleError (msg : String)
  | dillError (msg : String)
deriving DecidableEq, Repr

/-- A single traceback frame: `tb_frame.f_code.co_filename` and `tb_lineno`. -/
structure Frame where
  filename : String
  lineno : Nat
deriving DecidableEq, Repr

/-- A raised Python exception as seen by an `except` handler: the error
value together with its attached traceback (`__traceback__`), the list of
frames reached by following `tb_next`; the empty list models
`__traceback__ is None` (an exception that was constructed but never
raised). -/
structure PyExc where
  err : PyError
  trace : List Frame
deriving DecidableEq, Repr

/-- `line_number` in `CustomException` is either an `int` or the string
"Unknown"; this union type mirrors that. -/
inductive PyIntOrStr where
  | int (n : Nat)
  | str (s : String)
deriving DecidableEq, Repr

/-- Walking `while tb.tb_next: tb = tb.tb_next`: the deepest frame of a
traceback, `none` when there is no traceback at all. -/
def lastFrame : List Frame → Option Frame
  | [] => none
  | [f] => some f
  | _ :: f :: rest => lastFrame (f :: rest)

/-- Model of one line of `traceback.format_exception` output for a frame. -/
def formatFrame (f : Frame) : String :=
  s!"  File {f.filename}, line {f.lineno}\n"

/-- The display name of a native error, as in the last line of a rendered
traceback. -/
def errText : PyError → String
  | .fileNotFound m => s!"FileNotFoundError: {m}"
  | .valueError m => s!"ValueError: {m}"
  | .typeError m => s!"TypeError: {m}"
  | .fileExists m => s!"FileExistsError: {m}"
  | .yamlError m => s!"YAMLError: {m}"
  | .representerError m => s!"RepresenterError: {m}"
  | .pickleError m => s!"UnpicklingError: {m}"
  | .dillError m => s!"UnpicklingError: {m}"

/-- Model of `"".join(traceback.format_exception(type(e), e, e.__traceback__))`:
the rendered frames followed by the error line. With `__traceback__ = None`
the header and frames are absent but the result is still a (non-`None`)
string. -/
def formatException (e : PyExc) : String :=
  (if e.trace.isEmpty then ""
   else "Traceback (most recent call last):\n" ++ String.join (e.trace.map formatFrame))
  ++ errText e.err ++ "\n"

/-- The `CustomException` object after `__init__` has run: message, optional
original exception, originating file name and line number (or the "Unknown"
sentinels) and the rendered traceback text (or `None`). -/
structure CustomException where
  message : String
  original_exception : Option PyExc
  file_name : String
  line_number : PyIntOrStr
  traceback : Option String
deriving DecidableEq, Repr

/-- `CustomException.__init__` (src/exceptions/exception.py lines 17-47):
with an original exception, walk its traceback to the last frame to fill
`file_name` / `line_number` (falling back to "Unknown" when the traceback
is `None`) and render the full traceback text; with no original exception,
both origin fields are "Unknown" and the traceback text is `None`. -/
def CustomException.init (message : String) (original_exception : Option PyExc) :
    CustomException :=
  match original_exception with
  | some oe =>
    match lastFrame oe.trace with
    | some fr =>
      { message, original_exception := some oe,
        file_name := fr.filename, line_number := .int fr.lineno,
        traceback := some (formatException oe) }
    | none =>
      { message, original_exception := some oe,
        file_name := "Unknown", line_number := .str "Unknown",
        traceback := some (formatException oe) }
  | none =>
    { message, original_exception := none,
      file_name := "Unknown", line_number := .str "Unknown",
      traceback := none }

/-- `CustomException.__str__`: message plus origin location, original error
representation and traceback text when present. -/
def CustomException.toDisplay (c : CustomException) : String :=
  let lineTxt := match c.line_number with
    | .int n => toString n
    | .str s => s
  let base := s!"Error in file [{c.file_name}] at line [{lineTxt}]: {c.message}"
  let base := match c.original_exception with
    | some oe => base ++ s!"\nOriginal Error: {errText oe.err}"
    | none => base
  match c.traceback with
  | some tb => base ++ s!"\nTraceback:\n{tb}"
  | none => base

/-- `CustomException.to_dict`: the structured record form. -/
def CustomException.to_dict (c : CustomException) : List (String × String) :=
  let lineTxt := match c.line_number with
    | .int n => toString n
    | .str s => s
  [("message", c.message), ("file", c.file_name), ("line", lineTxt),
   ("original_error", match c.original_exception with
     | some oe => errText oe.err
     | none => "None")]

/-- Python values that flow through the file helpers: the YAML / pickle
value universe, numpy arrays (`np.ndarray`, modelled as integer vectors),
plus function objects (`lam`, serializable by dill but not by pickle) and
generator objects (`genObj`, serializable by neither). -/
inductive PyVal where
  | int (n : Int)
  | str (s : String)
  | boolV (b : Bool)
  | listV (vs : List PyVal)
  | dict (kvs : List (String × PyVal))
  | ndarray (data : List Int)
  | lam (id : Nat)
  | genObj (id : Nat)

/-- `isinstance(v, np.ndarray)`. -/
def isNdarray : PyVal → Bool
  | .ndarray _ => true
  | _ => false

/-- Whether `pickle.dump` accepts the value (lambdas and generators are
rejected by pickle). -/
def picklable : PyVal → Bool
  | .lam _ => false
  | .genObj _ => false
  | _ => true

/-- Whether `dill.dump` accepts the value (dill also serializes lambdas,
but not generators). -/
def dillable : PyVal → Bool
  | .genObj _ => false
  | _ => true

mutual

/-- Whether `yaml.safe_dump` can represent the value: scalars and
containers of representable values only; function objects, generator
objects and numpy arrays make the safe representer raise
`RepresenterError`. -/
def yamlable : PyVal → Bool
  | .int _ => true
  | .str _ => true
  | .boolV _ => true
  | .listV vs => yamlableList vs
  | .dict kvs => yamlablePairs kvs
  | .ndarray _ => false
  | .lam _ => false
  | .genObj _ => false

/-- `yamlable` on every element of a YAML sequence. -/
def yamlableList : List PyVal → Bool
  | [] => true
  | v :: vs => yamlable v && yamlableList vs

/-- `yamlable` on every value of a YAML mapping. -/
def yamlablePairs : List (String × PyVal) → Bool
  | [] => true
  | (_, v) :: kvs => yamlable v && yamlablePairs kvs

end

/-- A YAML document as stored on disk by this repository: either an empty
document (which `yaml.safe_load` parses to `None`) or a document whose
parse is the non-`None` value `v`. -/
inductive YamlDoc where
  | emptyDoc
  | doc (v : PyVal)

/-- Contents of a file on disk, tagged by which deserializers accept it:
`yamlText` is parseable YAML; `pickled` loads with `pickle` (and hence with
`dill`); `dilled` loads only with `dill`; `npyBytes` loads with `np.load`;
`garbage` loads with nothing. -/
inductive FileData where
  | yamlText (d : YamlDoc)
  | pickled (v : PyVal)
  | dilled (v : PyVal)
  | npyBytes (data : List Int)
  | garbage

/-- `yaml.safe_load` applied to the bytes of a file: `none` for an empty
document, the parsed value otherwise; raises a `YAMLError` on bytes that
are not parseable YAML. -/
def safeLoad : FileData → Except PyError (Option PyVal)
  | .yamlText .emptyDoc => .ok none
  | .yamlText (.doc v) => .ok (some v)
  | _ => .error (.yamlError "could not determine a constructor for the node")

/-- `pickle.load` applied to the bytes of a file. -/
def pickleLoad : FileData → Except PyError PyVal
  | .pickled v => .ok v
  | _ => .error (.pickleError "invalid load key")

/-- `dill.load` applied to the bytes of a file (dill reads everything
pickle reads, and dill-only payloads besides). -/
def dillLoad : FileData → Except PyError PyVal
  | .pickled v => .ok v
  | .dilled v => .ok v
  | _ => .error (.dillError "invalid load key")

/-- `pickle.dump`: produces pickle bytes, or raises on unpicklable values. -/
def pickleDump (v : PyVal) : Except PyError FileData :=
  if picklable v then .ok (.pickled v)
  else .error (.pickleError "cannot pickle object")

/-- `dill.dump`: produces dill bytes, or raises on values even dill cannot
serialize. -/
def dillDump (v : PyVal) : Except PyError FileData :=
  if dillable v then .ok (.dilled v)
  else .error (.dillError "cannot pickle object")

/-- Association-list lookup on string keys. -/
def lookupKey {α : Type} : List (String × α) → String → Option α
  | [], _ => none
  | (k, v) :: rest, key => if k = key then some v else lookupKey rest key

/-- Association-list update: replace the first binding of the key, or
append a new binding. -/
def setKey {α : Type} : List (String × α) → String → α → List (String × α)
  | [], key, v => [(key, v)]
  | (k, w) :: rest, key, v =>
    if k = key then (key, v) :: rest else (k, w) :: setKey rest key v

/-- Number of bindings of a key in an association list. -/
def countKey {α : Type} : List (String × α) → String → Nat
  | [], _ => 0
  | (k, _) :: rest, key => (if k = key then 1 else 0) + countKey rest key

/-- The filesystem state: regular files with their contents, and the set of
existing directories. -/
structure FS where
  files : List (String × FileData)
  dirs : List String

/-- The `/`-separated components of a path. -/
def pathParts (p : String) : List String :=
  (p.splitOn "/").filter (fun s => s ≠ "" ∧ s ≠ ".")

/-- Rebuild a path from components. -/
def joinParts (ps : List String) : String :=
  String.intercalate "/" ps

/-- `Path(p).parent`: the path with its last component removed, `"."` for a
single-component path. -/
def parentOf (p : String) : String :=
  let parts := pathParts p
  if parts.length ≤ 1 then "." else joinParts parts.dropLast

/-- All the non-empty prefixes of a path, deepest last: the directories
`mkdir(parents=True)` brings into existence (for `"a/b/c"`:
`["a", "a/b", "a/b/c"]`). -/
def ancestorPaths (p : String) : List String :=
  (List.range (pathParts p).length).map
    (fun k => joinParts ((pathParts p).take (k + 1)))

/-- Add directories to the filesystem. -/
def FS.addDirs (fs : FS) (ds : List String) : FS :=
  { fs with dirs := ds ++ fs.dirs }

/-- `Path(p).mkdir(parents=True, exist_ok=True)`: create the directory and
every missing ancestor; never fails. The directory is recorded both as the
path string given and in its normalized prefix spellings. -/
def FS.mkdirParents (fs : FS) (p : String) : FS :=
  fs.addDirs (p :: ancestorPaths p)

/-- `Path(p).mkdir(parents=True, exist_ok=existOk)`: with `exist_ok=False`
raises `FileExistsError` when the target directory already exists; ancestors
may freely pre-exist. -/
def FS.mkdir (fs : FS) (p : String) (existOk : Bool) : Except PyError FS :=
  if !existOk && decide (p ∈ fs.dirs) then
    .error (.fileExists s!"File exists: {p}")
  else
    .ok (fs.mkdirParents p)

/-- Whether `open(fp, "w"/"wb")` succeeds: the parent directory must exist
(the filesystem root `"."` always exists). -/
def FS.canWrite (fs : FS) (fp : String) : Bool :=
  decide (parentOf fp = ".") || decide (parentOf fp ∈ fs.dirs)

/-- Store file contents at a path. -/
def FS.setFile (fs : FS) (fp : String) (d : FileData) : FS :=
  { fs with files := setKey fs.files fp d }

/-- A one-frame traceback for an exception raised at the given line of
src/utils/main_utils.py. -/
def utilsFrame (line : Nat) : List Frame :=
  [⟨"src/utils/main_utils.py", line⟩]

/-- The outer `except Exception as e: raise CustomException(message=..,
original_exception=e)` boundary shared by every FileOps helper. -/
def wrapExc {α : Type} (msg : String) : Except PyExc α → Except CustomException α
  | .ok a => .ok a
  | .error e => .error (CustomException.init msg (some e))

/-- The same boundary for state-modifying helpers: the exception is wrapped
and the filesystem state reached before the failure is kept. -/
def wrapExcSt {α : Type} (msg : String) (p : Except PyExc α × FS) :
    Except CustomException α × FS :=
  (wrapExc msg p.1, p.2)

/-- Body of the `try` block of `read_yaml` (src/utils/main_utils.py lines
16-30): raise `FileNotFoundError` when the path does not exist (line 20),
parse with `yaml.safe_load`, raise `ValueError` when the parse is `None`
(line 26), return the parsed content otherwise. -/
def readYamlTry (fs : FS) (file_path : String) : Except PyExc PyVal :=
  match lookupKey fs.files file_path with
  | none => .error ⟨.fileNotFound s!"YAML file not found at {file_path}", utilsFrame 20⟩
  | some data =>
    match safeLoad data with
    | .error e => .error ⟨e, utilsFrame 23⟩
    | .ok none => .error ⟨.valueError "YAML file is empty", utilsFrame 26⟩
    | .ok (some v) => .ok v

/-- `read_yaml` (src/utils/main_utils.py lines 15-37). -/
def read_yaml (fs : FS) (file_path : String) : Except CustomException PyVal :=
  wrapExc "Error while reading YAML file" (readYamlTry fs file_path)

/-- Body of the `try` block of `write_yaml` (src/utils/main_utils.py lines
53-69): create the parent directory when `create_dir`, then open for
writing (`FileNotFoundError` when the parent directory is missing) and dump
the mapping with `yaml.safe_dump(.., sort_keys=False)`, which keeps key
order. `safe_dump` raises `RepresenterError` when the mapping holds a value
the safe representer cannot serialize; `open(.., "w")` has already
truncated the target by then, so the path is left holding an empty
document. -/
def writeYamlTry (fs : FS) (file_path : String) (data : List (String × PyVal))
    (create_dir : Bool) : Except PyExc Unit × FS :=
  let fs1 := if create_dir then fs.mkdirParents (parentOf file_path) else fs
  if fs1.canWrite file_path then
    if yamlable (.dict data) then
      (.ok (), fs1.setFile file_path (.yamlText (.doc (.dict data))))
    else
      (.error ⟨.representerError "cannot represent an object", utilsFrame 61⟩,
       fs1.setFile file_path (.yamlText .emptyDoc))
  else
    (.error ⟨.fileNotFound s!"No such file or directory: {file_path}", utilsFrame 60⟩, fs1)

/-- `write_yaml` (src/utils/main_utils.py lines 40-76). -/
def write_yaml (fs : FS) (file_path : String) (data : List (String × PyVal))
    (create_dir : Bool) : Except CustomException Unit × FS :=
  wrapExcSt "Error while writing YAML file" (writeYamlTry fs file_path data create_dir)

/-- Body of the outer `try` block of `load_object` (src/utils/main_utils.py
lines 79-101): raise `FileNotFoundError` when the path does not exist
(line 83); otherwise try `pickle.load`, and only when it fails try
`dill.load`, whose failure propagates. -/
def loadObjectTry (fs : FS) (file_path : String) : Except PyExc PyVal :=
  match lookupKey fs.files file_path with
  | none => .error ⟨.fileNotFound s!"Object file not found at {file_path}", utilsFrame 83⟩
  | some data =>
    match pickleLoad data with
    | .ok obj => .ok obj
    | .error _ =>
      match dillLoad data with
      | .ok obj => .ok obj
      | .error e => .error ⟨e, utilsFrame 98⟩

/-- `load_object` (src/utils/main_utils.py lines 78-108). -/
def load_object (fs : FS) (file_path : String) : Except CustomException PyVal :=
  wrapExc "Error while loading object" (loadObjectTry fs file_path)

/-- Body of the outer `try` block of `save_object` (src/utils/main_utils.py
lines 113-131): create the parent directory when `create_dir`, open for
writing, try `pickle.dump`, and only when it fails try `dill.dump`, whose
failure propagates. -/
def saveObjectTry (fs : FS) (file_path : String) (obj : PyVal)
    (create_dir : Bool) : Except PyExc Unit × FS :=
  let fs1 := if create_dir then fs.mkdirParents (parentOf file_path) else fs
  if fs1.canWrite file_path then
    match pickleDump obj with
    | .ok d => (.ok (), fs1.setFile file_path d)
    | .error _ =>
      match dillDump obj with
      | .ok d => (.ok (), fs1.setFile file_path d)
      | .error e => (.error ⟨e, utilsFrame 129⟩, fs1)
  else
    (.error ⟨.fileNotFound s!"No such file or directory: {file_path}", utilsFrame 121⟩, fs1)

/-- `save_object` (src/utils/main_utils.py lines 112-138). -/
def save_object (fs : FS) (file_path : String) (obj : PyVal)
    (create_dir : Bool) : Except CustomException Unit × FS :=
  wrapExcSt "Error while saving object" (saveObjectTry fs file_path obj create_dir)

/-- `np.save` appends the `.npy` extension when the target path lacks it. -/
def withNpyExt (fp : String) : String :=
  if fp.endsWith ".npy" then fp else fp ++ ".npy"

/-- Body of the `try` block of `save_numpy_array_data`
(src/utils/main_utils.py lines 153-164): create the parent directory when
`create_dir` (line 157), then raise `TypeError` when the input is not an
`np.ndarray` (line 160), then `np.save` (line 162, which opens the file for
writing). The directory creation precedes the type check. -/
def saveNumpyTry (fs : FS) (file_path : String) (array : PyVal)
    (create_dir : Bool) : Except PyExc Unit × FS :=
  let fs1 := if create_dir then fs.mkdirParents (parentOf file_path) else fs
  match array with
  | .ndarray data =>
    if fs1.canWrite file_path then
      (.ok (), fs1.setFile (withNpyExt file_path) (.npyBytes data))
    else
      (.error ⟨.fileNotFound s!"No such file or directory: {file_path}", utilsFrame 162⟩, fs1)
  | _ => (.error ⟨.typeError "Input must be a numpy.ndarray", utilsFrame 160⟩, fs1)

/-- `save_numpy_array_data` (src/utils/main_utils.py lines 140-171). -/
def save_numpy_array_data (fs : FS) (file_path : String) (array : PyVal)
    (create_dir : Bool) : Except CustomException Unit × FS :=
  wrapExcSt "Error while saving numpy array" (saveNumpyTry fs file_path array create_dir)

/-- `np.load` applied to the bytes of a file. -/
def npLoad : FileData → Except PyError (List Int)
  | .npyBytes data => .ok data
  | _ => .error (.valueError "Cannot load file containing non-array data")

/-- Body of the `try` block of `load_numpy_array_data`
(src/utils/main_utils.py lines 177-187): raise `FileNotFoundError` when the
path does not exist (line 181), then `np.load` (line 183). -/
def loadNumpyTry (fs : FS) (file_path : String) : Except PyExc (List Int) :=
  match lookupKey fs.files file_path with
  | none => .error ⟨.fileNotFound s!"Numpy file not found at {file_path}", utilsFrame 181⟩
  | some data =>
    match npLoad data with
    | .ok a => .ok a
    | .error e => .error ⟨e, utilsFrame 183⟩

/-- `load_numpy_array_data` (src/utils/main_utils.py lines 173-194). -/
def load_numpy_array_data (fs : FS) (file_path : String) :
    Except CustomException (List Int) :=
  wrapExc "Error while loading numpy array" (loadNumpyTry fs file_path)

/-- The `for path in paths` loop of `create_directories`
(src/utils/main_utils.py lines 216-218): `Path(path).mkdir(parents=True,
exist_ok=exist_ok)` for each path in order; a failure stops the loop,
leaving the directories already created. -/
def createDirsLoop (fs : FS) (ps : List String) (exist_ok : Bool) :
    Except PyExc Unit × FS :=
  match ps with
  | [] => (.ok (), fs)
  | p :: rest =>
    match fs.mkdir p exist_ok with
    | .error e => (.error ⟨e, utilsFrame 217⟩, fs)
    | .ok fs1 => createDirsLoop fs1 rest exist_ok

/-- `create_directories` (src/utils/main_utils.py lines 197-225): a single
string is promoted to a one-element list (line 214), then each directory is
created in order. -/
def create_directories (fs : FS) (paths : String ⊕ List String)
    (exist_ok : Bool) : Except CustomException Unit × FS :=
  let ps := match paths with
    | .inl s => [s]
    | .inr l => l
  wrapExcSt "Error while creating directories" (createDirsLoop fs ps exist_ok)

/-- The two formatter choices of `LoggerFactory.get_logger`: the plain-text
`logging.Formatter` and the structured `JsonFormatter`. -/
inductive FormatterKind where
  | plain
  | json
deriving DecidableEq, Repr

/-- A handler attached to a logger: a `RotatingFileHandler` (path, rotation
threshold in bytes, retained backups, formatter) or a console
`StreamHandler` (formatter). -/
inductive Handler where
  | rotatingFile (path : String) (maxBytes : Nat) (backupCount : Nat) (fmt : FormatterKind)
  | console (fmt : FormatterKind)
deriving DecidableEq, Repr

/-- A `logging.Logger` object: its name, numeric minimum severity level,
attached handlers and the `propagate` flag. -/
structure Logger where
  name : String
  level : Nat
  handlers : List Handler
  propagate : Bool
deriving DecidableEq, Repr

/-- The process-wide state the factory works with: the `logging` module's
own registry of logger objects keyed by name, and the set of names present
in `LoggerFactory._configured_loggers`. The code only ever stores
`logging.getLogger(name)` itself in `_configured_loggers[name]`, so the
cached object is always the registry entry for the name. -/
structure LogState where
  registry : List (String × Logger)
  configuredNames : List String
deriving Repr

/-- Well-formedness tying the two maps together: every name cached in
`_configured_loggers` has a logger object in the `logging` registry (true
of every state the factory produces, since it caches only objects obtained
from `logging.getLogger`). -/
def LogState.wf (st : LogState) : Prop :=
  ∀ n, n ∈ st.configuredNames → (lookupKey st.registry n).isSome

/-- `str.upper()` on ASCII text (structural, so that it evaluates by
reduction). -/
def upperAscii (s : String) : String :=
  ⟨s.data.map fun c => if 'a' ≤ c ∧ c ≤ 'z' then Char.ofNat (c.toNat - 32) else c⟩

/-- The numeric value of a level name, as `getattr(logging, name.upper(),
logging.INFO)` resolves it (unknown names fall back to INFO = 20). -/
def levelOfName (s : String) : Nat :=
  if upperAscii s = "DEBUG" then 10
  else if upperAscii s = "INFO" then 20
  else if upperAscii s = "WARNING" then 30
  else if upperAscii s = "WARN" then 30
  else if upperAscii s = "ERROR" then 40
  else if upperAscii s = "CRITICAL" then 50
  else if upperAscii s = "FATAL" then 50
  else if upperAscii s = "NOTSET" then 0
  else 20

/-- The level-resolution prologue of `get_logger`
(src/logging_core/logger.py lines 52-58): an absent level falls back to the
`LOG_LEVEL` environment variable and then to INFO; a string level is
resolved by name. -/
def resolveLevel (envLogLevel : Option String) (level : Option (Nat ⊕ String)) : Nat :=
  match level with
  | none =>
    match envLogLevel with
    | some s => levelOfName s
    | none => levelOfName "INFO"
  | some (.inl n) => n
  | some (.inr s) => levelOfName s

/-- The keyword options of `get_logger` with their default values
(src/logging_core/logger.py lines 41-49). -/
structure GetLoggerArgs where
  log_dir : String
  log_file : Option String
  level : Option (Nat ⊕ String)
  max_bytes : Nat
  backup_count : Nat
  console : Bool
  json_format : Bool
deriving Repr

/-- The defaults: `log_dir="logs"`, `log_file=None`, `level=None`,
`max_bytes=5*1024*1024`, `backup_count=5`, `console=True`,
`json_format=False`. -/
def defaultArgs : GetLoggerArgs :=
  { log_dir := "logs", log_file := none, level := none,
    max_bytes := 5 * 1024 * 1024, backup_count := 5,
    console := true, json_format := false }

/-- `logging.getLogger(name)`: the registry entry for the name, or a fresh
logger (level NOTSET, no handlers, propagating) when none exists yet. -/
def getLoggerObj (st : LogState) (name : String) : Logger :=
  match lookupKey st.registry name with
  | some lg => lg
  | none => { name, level := 0, handlers := [], propagate := true }

/-- `LoggerFactory.get_logger` (src/logging_core/logger.py lines 40-105):
resolve the level; when the name is cached, return the cached logger with
its level updated (lines 61-64); otherwise fetch `logging.getLogger(name)`,
set level and `propagate=False`, and when the logger has no handlers attach
a rotating file handler at `log_dir/log_file` (defaulting to
`<name>.log`) and, when `console`, a console handler, both with the JSON or
plain formatter; finally cache the logger under the name. Returns the
logger and the updated process state. -/
def get_logger (st : LogState) (envLogLevel : Option String) (name : String)
    (a : GetLoggerArgs) : Logger × LogState :=
  let level := resolveLevel envLogLevel a.level
  if name ∈ st.configuredNames then
    let lg := getLoggerObj st name
    let lg1 := { lg with level := level }
    (lg1, { st with registry := setKey st.registry name lg1 })
  else
    let lg := getLoggerObj st name
    let lg1 := { lg with level := level, propagate := false }
    let lg2 :=
      if lg1.handlers.isEmpty then
        let log_file := match a.log_file with
          | some f => f
          | none => name ++ ".log"
        let file_path := a.log_dir ++ "/" ++ log_file
        let fmt := if a.json_format then FormatterKind.json else FormatterKind.plain
        let withFile := lg1.handlers ++ [Handler.rotatingFile file_path a.max_bytes a.backup_count fmt]
        { lg1 with handlers :=
            if a.console then withFile ++ [Handler.console fmt] else withFile }
      else lg1
    (lg2, { registry := setKey st.registry name lg2,
            configuredNames := name :: st.configuredNames })

/-- The failure shape every FileOps helper promises: when the result is an
error, it is a `CustomException` carrying the operation-specific message
and some original native error as its cause (and by the result type, no
other exception kind can escape). -/
def raisesWrapped {α : Type} (msg : String) : Except CustomException α → Prop
  | .ok _ => True
  | .error c => c.message = msg ∧ c.original_exception.isSome = true

/-- A concrete filesystem exercising the YAML reader. -/
def fsYaml : FS :=
  ⟨[("cfg.yaml", .yamlText (.doc (.dict [("k", .int 1)]))),
    ("empty.yaml", .yamlText .emptyDoc)], []⟩

/-- A concrete filesystem exercising the object loader: a pickle file, a
dill-only file and an unreadable file. -/
def fsObj : FS :=
  ⟨[("model.pkl", .pickled (.int 7)),
    ("fn.pkl", .dilled (.lam 0)),
    ("bad.pkl", .garbage)], []⟩

/-- The logger that the first `get_logger ⟨[], []⟩ none "x" defaultArgs`
call creates and caches. -/
def loggerX : Logger :=
  { name := "x", level := 20,
    handlers := [.rotatingFile "logs/x.log" (5 * 1024 * 1024) 5 .plain, .console .plain],
    propagate := false }

theorem lookupKey_setKey_self {α : Type} (l : List (String × α)) (k : String) (v : α) :
    lookupKey (setKey l k v) k = some v := by
  induction l with
  | nil => simp [setKey, lookupKey]
  | cons kv rest ih =>
    obtain ⟨k1, w⟩ := kv
    by_cases h : k1 = k
    · simp [setKey, h, lookupKey]
    · simp [setKey, h, lookupKey, ih]

theorem lookupKey_setKey_ne {α : Type} (l : List (String × α)) (k m : String) (v : α)
    (h : m ≠ k) : lookupKey (setKey l k v) m = lookupKey l m := by
  have hk : ¬ k = m := fun hh => h hh.symm
  induction l with
  | nil => simp [setKey, lookupKey, hk]
  | cons kv rest ih =>
    obtain ⟨k1, w⟩ := kv
    by_cases hk1 : k1 = k
    · subst hk1
      simp [setKey, lookupKey, hk]
    · simp [setKey, hk1, lookupKey, ih]

theorem countKey_setKey {α : Type} (l : List (String × α)) (k : String) (v : α) :
    countKey (setKey l k v) k = max (countKey l k) 1 := by
  induction l with
  | nil => simp [setKey, countKey]
  | cons kv rest ih =>
    obtain ⟨k1, w⟩ := kv
    by_cases h : k1 = k
    · simp [setKey, h, countKey]
      try omega
    · simp [setKey, h, countKey, ih]

theorem init_message (msg : String) (oe : Option PyExc) :
    (CustomException.init msg oe).message = msg := by
  cases oe with
  | none => rfl
  | some e => cases h : lastFrame e.trace <;> simp [CustomException.init, h]

theorem init_cause (msg : String) (e : PyExc) :
    (CustomException.init msg (some e)).original_exception = some e := by
  cases h : lastFrame e.trace <;> simp [CustomException.init, h]

theorem raisesWrapped_wrapExc {α : Type} (msg : String) (r : Except PyExc α) :
    raisesWrapped msg (wrapExc msg r) := by
  cases r with
  | ok a => exact trivial
  | error e => exact ⟨init_message _ _, by simp [init_cause]⟩

/-- C1: every FileOps operation, on every input on which the underlying
action fails, raises a `CustomException` carrying the operation-specific
message and the original native error as cause; the `Except CustomException`
result type shows no other exception type escapes, and every error of the
`try` body reaches the `wrapExc`/`wrapExcSt` boundary, so no failure is
silently swallowed. -/
theorem claim_C1 :
    (∀ fs fp, raisesWrapped "Error while reading YAML file" (read_yaml fs fp)) ∧
    (∀ fs fp d cd, raisesWrapped "Error while writing YAML file" (write_yaml fs fp d cd).1) ∧
    (∀ fs fp, raisesWrapped "Error while loading object" (load_object fs fp)) ∧
    (∀ fs fp obj cd, raisesWrapped "Error while saving object" (save_object fs fp obj cd).1) ∧
    (∀ fs fp arr cd,
      raisesWrapped "Error while saving numpy array" (save_numpy_array_data fs fp arr cd).1) ∧
    (∀ fs fp, raisesWrapped "Error while loading numpy array" (load_numpy_array_data fs fp)) ∧
    (∀ fs ps ok, raisesWrapped "Error while creating directories" (create_directories fs ps ok).1) :=
  ⟨fun _ _ => raisesWrapped_wrapExc _ _,
   fun _ _ _ _ => raisesWrapped_wrapExc _ _,
   fun _ _ => raisesWrapped_wrapExc _ _,
   fun _ _ _ _ => raisesWrapped_wrapExc _ _,
   fun _ _ _ _ => raisesWrapped_wrapExc _ _,
   fun _ _ => raisesWrapped_wrapExc _ _,
   fun _ _ _ => raisesWrapped_wrapExc _ _⟩

/-- C2 counterexample: the claim says that whenever a causing error is
supplied, the constructor records the deepest frame's file path and line
number — but a causing error whose `__traceback__` is `None` (a constructed,
never-raised exception) has no frame at all, and the constructor falls back
to the "Unknown" sentinels even though a cause was supplied. -/
theorem claim_C2_counterexample :
    ¬ (∀ (msg : String) (e : PyExc), ∃ fr,
        lastFrame e.trace = some fr ∧
        (CustomException.init msg (some e)).file_name = fr.filename ∧
        (CustomException.init msg (some e)).line_number = .int fr.lineno) := by
  intro h
  rcases h "m" ⟨.valueError "boom", []⟩ with ⟨fr, hfr, _⟩
  simp [lastFrame] at hfr

/-- C2 (amended): with no causing error, the origin fields are the
"Unknown" sentinels and the trace text is absent; with a causing error, the
cause is recorded and the trace text is always rendered, and the origin
fields come from the deepest frame of the cause's attached trace when that
trace exists, falling back to the "Unknown" sentinels when the cause
carries no trace. -/
theorem claim_C2 : ∀ (msg : String) (oe : Option PyExc),
    (oe = none →
      (CustomException.init msg oe).file_name = "Unknown" ∧
      (CustomException.init msg oe).line_number = .str "Unknown" ∧
      (CustomException.init msg oe).traceback = none ∧
      (CustomException.init msg oe).original_exception = none) ∧
    (∀ e, oe = some e →
      (CustomException.init msg oe).original_exception = some e ∧
      (CustomException.init msg oe).traceback = some (formatException e) ∧
      (∀ fr, lastFrame e.trace = some fr →
        (CustomException.init msg oe).file_name = fr.filename ∧
        (CustomException.init msg oe).line_number = .int fr.lineno) ∧
      (lastFrame e.trace = none →
        (CustomException.init msg oe).file_name = "Unknown" ∧
        (CustomException.init msg oe).line_number = .str "Unknown")) := by
  intro msg oe
  constructor
  · rintro rfl
    simp [CustomException.init]
  · rintro e rfl
    cases h : lastFrame e.trace with
    | none =>
      refine ⟨?_, ?_, ?_, ?_⟩ <;> simp [CustomException.init, h]
    | some fr =>
      refine ⟨?_, ?_, ?_, ?_⟩ <;> simp [CustomException.init, h]

/-- C2 witness: a cause raised at line 3 of `f.py` yields that origin, and
the no-cause construction yields the sentinels. -/
theorem claim_C2_witness :
    (CustomException.init "m" (some ⟨.valueError "x", [⟨"f.py", 3⟩]⟩)).file_name = "f.py" ∧
    (CustomException.init "m" (some ⟨.valueError "x", [⟨"f.py", 3⟩]⟩)).line_number = .int 3 ∧
    (CustomException.init "m" none).file_name = "Unknown" ∧
    (CustomException.init "m" none).traceback = none := by
  have h1 := ((claim_C2 "m" (some ⟨.valueError "x", [⟨"f.py", 3⟩]⟩)).2
    ⟨.valueError "x", [⟨"f.py", 3⟩]⟩ rfl).2.2.1 ⟨"f.py", 3⟩ rfl
  have h2 := (claim_C2 "m" none).1 rfl
  exact ⟨h1.1, h1.2, h2.1, h2.2.2.1⟩

theorem canWrite_mkdirParents (fs : FS) (fp : String) :
    (fs.mkdirParents (parentOf fp)).canWrite fp = true := by
  simp [FS.canWrite, FS.mkdirParents, FS.addDirs]

/-- C5: `read_yaml` raises a wrapped `FileNotFoundError` exactly when the
path does not exist, a wrapped `ValueError` ("YAML file is empty") exactly
when the document parses to `None`, and returns the parsed content on every
other YAML document. -/
theorem claim_C5 : ∀ (fs : FS) (fp : String),
    (lookupKey fs.files fp = none →
      read_yaml fs fp = .error (CustomException.init "Error while reading YAML file"
        (some ⟨.fileNotFound s!"YAML file not found at {fp}", utilsFrame 20⟩))) ∧
    (lookupKey fs.files fp = some (.yamlText .emptyDoc) →
      read_yaml fs fp = .error (CustomException.init "Error while reading YAML file"
        (some ⟨.valueError "YAML file is empty", utilsFrame 26⟩))) ∧
    (∀ v, lookupKey fs.files fp = some (.yamlText (.doc v)) →
      read_yaml fs fp = .ok v) := by
  intro fs fp
  refine ⟨fun h => ?_, fun h => ?_, fun v h => ?_⟩ <;>
    simp [read_yaml, readYamlTry, h, safeLoad, wrapExc]

theorem claim_C5_witness :
    read_yaml fsYaml "cfg.yaml" = .ok (.dict [("k", .int 1)]) ∧
    read_yaml fsYaml "empty.yaml" = .error (CustomException.init "Error while reading YAML file"
      (some ⟨.valueError "YAML file is empty", utilsFrame 26⟩)) ∧
    read_yaml fsYaml "missing.yaml" = .error (CustomException.init "Error while reading YAML file"
      (some ⟨.fileNotFound "YAML file not found at missing.yaml", utilsFrame 20⟩)) :=
  ⟨(claim_C5 fsYaml "cfg.yaml").2.2 (.dict [("k", .int 1)]) rfl,
   (claim_C5 fsYaml "empty.yaml").2.1 rfl,
   (claim_C5 fsYaml "missing.yaml").1 rfl⟩

/-- C6: `load_object` raises a wrapped `FileNotFoundError` when the path
does not exist; otherwise it returns the pickle result whenever pickle
succeeds, falls back to dill exactly when pickle fails, and raises a
wrapped error only when both schemes fail. -/
theorem claim_C6 : ∀ (fs : FS) (fp : String),
    (lookupKey fs.files fp = none →
      load_object fs fp = .error (CustomException.init "Error while loading object"
        (some ⟨.fileNotFound s!"Object file not found at {fp}", utilsFrame 83⟩))) ∧
    (∀ d, lookupKey fs.files fp = some d →
      (∀ v, pickleLoad d = .ok v → load_object fs fp = .ok v) ∧
      (∀ pe, pickleLoad d = .error pe →
        (∀ v, dillLoad d = .ok v → load_object fs fp = .ok v) ∧
        (∀ de, dillLoad d = .error de →
          load_object fs fp = .error (CustomException.init "Error while loading object"
            (some ⟨de, utilsFrame 98⟩))))) := by
  intro fs fp
  constructor
  · intro h
    simp [load_object, loadObjectTry, h, wrapExc]
  · intro d hd
    refine ⟨fun v hv => ?_, fun pe hpe => ⟨fun v hv => ?_, fun de hde => ?_⟩⟩
    · simp [load_object, loadObjectTry, hd, hv, wrapExc]
    · simp [load_object, loadObjectTry, hd, hpe, hv, wrapExc]
    · simp [load_object, loadObjectTry, hd, hpe, hde, wrapExc]

theorem claim_C6_witness :
    load_object fsObj "model.pkl" = .ok (.int 7) ∧
    load_object fsObj "fn.pkl" = .ok (.lam 0) ∧
    load_object fsObj "bad.pkl" = .error (CustomException.init "Error while loading object"
      (some ⟨.dillError "invalid load key", utilsFrame 98⟩)) ∧
    load_object fsObj "missing.pkl" = .error (CustomException.init "Error while loading object"
      (some ⟨.fileNotFound "Object file not found at missing.pkl", utilsFrame 83⟩)) :=
  ⟨((claim_C6 fsObj "model.pkl").2 (.pickled (.int 7)) rfl).1 (.int 7) rfl,
   (((claim_C6 fsObj "fn.pkl").2 (.dilled (.lam 0)) rfl).2
     (.pickleError "invalid load key") rfl).1 (.lam 0) rfl,
   (((claim_C6 fsObj "bad.pkl").2 .garbage rfl).2
     (.pickleError "invalid load key") rfl).2 (.dillError "invalid load key") rfl,
   (claim_C6 fsObj "missing.pkl").1 rfl⟩

/-- C7: `save_numpy_array_data` raises a wrapped `TypeError` on every input
that is not a numpy array, for either value of `create_dir`; on every numpy
array input (with the default `create_dir=True`) it stores the array in
`.npy` form at the target path without raising. -/
theorem claim_C7 : ∀ (fs : FS) (fp : String) (arr : PyVal) (cd : Bool),
    (isNdarray arr = false →
      (save_numpy_array_data fs fp arr cd).1 = .error (CustomException.init
        "Error while saving numpy array"
        (some ⟨.typeError "Input must be a numpy.ndarray", utilsFrame 160⟩))) ∧
    (∀ data, arr = .ndarray data →
      (save_numpy_array_data fs fp arr true).1 = .ok () ∧
      lookupKey (save_numpy_array_data fs fp arr true).2.files (withNpyExt fp)
        = some (.npyBytes data)) := by
  intro fs fp arr cd
  constructor
  · intro h
    cases arr <;>
      simp [isNdarray] at h <;>
      simp [save_numpy_array_data, saveNumpyTry, wrapExcSt, wrapExc]
  · rintro data rfl
    simp [save_numpy_array_data, saveNumpyTry, canWrite_mkdirParents, wrapExcSt,
      wrapExc, FS.setFile, lookupKey_setKey_self]

theorem claim_C7_witness :
    (save_numpy_array_data ⟨[], []⟩ "out/a.npy" (.listV [.int 1]) true).1
      = .error (CustomException.init "Error while saving numpy array"
          (some ⟨.typeError "Input must be a numpy.ndarray", utilsFrame 160⟩)) ∧
    (save_numpy_array_data ⟨[], []⟩ "out/a.npy" (.ndarray [1, 2]) true).1 = .ok () ∧
    lookupKey (save_numpy_array_data ⟨[], []⟩ "out/a.npy" (.ndarray [1, 2]) true).2.files
      (withNpyExt "out/a.npy") = some (.npyBytes [1, 2]) :=
  ⟨(claim_C7 ⟨[], []⟩ "out/a.npy" (.listV [.int 1]) true).1 rfl,
   ((claim_C7 ⟨[], []⟩ "out/a.npy" (.ndarray [1, 2]) true).2 [1, 2] rfl).1,
   ((claim_C7 ⟨[], []⟩ "out/a.npy" (.ndarray [1, 2]) true).2 [1, 2] rfl).2⟩

/-- C10: when `save_numpy_array_data` is called with `create_dir=True` and a
non-array input, the call raises, yet the parent directory of the target
path (and every ancestor of it) has already been created and persists in
the resulting filesystem state: the rejection is not atomic. -/
theorem claim_C10 : ∀ (fs : FS) (fp : String) (arr : PyVal),
    isNdarray arr = false →
    (∃ c, (save_numpy_array_data fs fp arr true).1 = .error c) ∧
    parentOf fp ∈ (save_numpy_array_data fs fp arr true).2.dirs ∧
    (∀ d, d ∈ ancestorPaths (parentOf fp) →
      d ∈ (save_numpy_array_data fs fp arr true).2.dirs) := by
  intro fs fp arr h
  have hst : (save_numpy_array_data fs fp arr true).2 = fs.mkdirParents (parentOf fp) := by
    cases arr <;> simp [isNdarray] at h <;>
      simp [save_numpy_array_data, saveNumpyTry, wrapExcSt]
  have herr : (save_numpy_array_data fs fp arr true).1
      = .error (CustomException.init "Error while saving numpy array"
          (some ⟨.typeError "Input must be a numpy.ndarray", utilsFrame 160⟩)) := by
    cases arr <;> simp [isNdarray] at h <;>
      simp [save_numpy_array_data, saveNumpyTry, wrapExcSt, wrapExc]
  refine ⟨⟨_, herr⟩, ?_, ?_⟩
  · rw [hst]
    simp [FS.mkdirParents, FS.addDirs]
  · intro d hd
    rw [hst]
    simp [FS.mkdirParents, FS.addDirs]
    exact Or.inr (Or.inl hd)

theorem claim_C10_witness :
    (∃ c, (save_numpy_array_data ⟨[], []⟩ "data/arr.npy" (.listV []) true).1 = .error c) ∧
    parentOf "data/arr.npy"
      ∈ (save_numpy_array_data ⟨[], []⟩ "data/arr.npy" (.listV []) true).2.dirs :=
  ⟨(claim_C10 ⟨[], []⟩ "data/arr.npy" (.listV []) rfl).1,
   (claim_C10 ⟨[], []⟩ "data/arr.npy" (.listV []) rfl).2.1⟩

/-- C8: for every valid mapping — one whose values the YAML representer can
serialize — writing it with `write_yaml` (default `create_dir=True`) and
reading the same path back with `read_yaml` succeeds and returns the very
mapping, key order included (the writer dumps with `sort_keys=False`, and
the round-trip equality is on the ordered association list). -/
theorem claim_C8 : ∀ (fs : FS) (fp : String) (kvs : List (String × PyVal)),
    yamlable (.dict kvs) = true →
    (write_yaml fs fp kvs true).1 = .ok () ∧
    read_yaml (write_yaml fs fp kvs true).2 fp = .ok (.dict kvs) := by
  intro fs fp kvs hy
  have hw : writeYamlTry fs fp kvs true
      = (.ok (), (fs.mkdirParents (parentOf fp)).setFile fp (.yamlText (.doc (.dict kvs)))) := by
    simp [writeYamlTry, canWrite_mkdirParents, hy]
  constructor
  · simp [write_yaml, wrapExcSt, hw, wrapExc]
  · simp [read_yaml, readYamlTry, write_yaml, wrapExcSt, hw, FS.setFile,
      lookupKey_setKey_self, safeLoad, wrapExc]

theorem claim_C8_witness :
    yamlable (.dict [("k", .int 1), ("s", .str "v")]) = true ∧
    (write_yaml ⟨[], []⟩ "cfg/out.yaml" [("k", .int 1), ("s", .str "v")] true).1 = .ok () ∧
    read_yaml (write_yaml ⟨[], []⟩ "cfg/out.yaml" [("k", .int 1), ("s", .str "v")] true).2
      "cfg/out.yaml" = .ok (.dict [("k", .int 1), ("s", .str "v")]) := by
  have hy : yamlable (.dict [("k", .int 1), ("s", .str "v")]) = true := by
    simp [yamlable, yamlablePairs]
  have h := claim_C8 ⟨[], []⟩ "cfg/out.yaml" [("k", .int 1), ("s", .str "v")] hy
  exact ⟨hy, h.1, h.2⟩

/-- C9: `create_directories` accepts a single path exactly as the
one-element list of paths; a first call (with the default `exist_ok=True`)
succeeds and creates the directory; calling it again on the existing path
succeeds with `exist_ok=True` and raises a wrapped `FileExistsError` with
`exist_ok=False`. -/
theorem claim_C9 : ∀ (fs : FS) (p : String),
    (∀ ok, create_directories fs (.inl p) ok = create_directories fs (.inr [p]) ok) ∧
    (create_directories fs (.inl p) true).1 = .ok () ∧
    p ∈ (create_directories fs (.inl p) true).2.dirs ∧
    (create_directories (create_directories fs (.inl p) true).2 (.inl p) true).1 = .ok () ∧
    (create_directories (create_directories fs (.inl p) true).2 (.inl p) false).1
      = .error (CustomException.init "Error while creating directories"
          (some ⟨.fileExists s!"File exists: {p}", utilsFrame 217⟩)) := by
  intro fs p
  have h1 : create_directories fs (.inl p) true = (.ok (), fs.mkdirParents p) := by
    simp [create_directories, createDirsLoop, FS.mkdir, wrapExcSt, wrapExc]
  have hp : p ∈ (fs.mkdirParents p).dirs := by
    simp [FS.mkdirParents, FS.addDirs]
  refine ⟨fun ok => rfl, ?_, ?_, ?_, ?_⟩
  · simp [h1]
  · rw [h1]
    exact hp
  · rw [h1]
    simp [create_directories, createDirsLoop, FS.mkdir, wrapExcSt, wrapExc]
  · rw [h1]
    simp [create_directories, createDirsLoop, FS.mkdir, hp, wrapExcSt, wrapExc]

theorem get_logger_lookup_self (st : LogState) (env : Option String) (name : String)
    (a : GetLoggerArgs) :
    lookupKey (get_logger st env name a).2.registry name
      = some (get_logger st env name a).1 := by
  by_cases h : name ∈ st.configuredNames <;>
    simp [get_logger, h, lookupKey_setKey_self]

theorem get_logger_mem_configured (st : LogState) (env : Option String) (name : String)
    (a : GetLoggerArgs) :
    name ∈ (get_logger st env name a).2.configuredNames := by
  by_cases h : name ∈ st.configuredNames <;> simp [get_logger, h]

theorem get_logger_countKey (st : LogState) (env : Option String) (name : String)
    (a : GetLoggerArgs) (h : countKey st.registry name ≤ 1) :
    countKey (get_logger st env name a).2.registry name ≤ 1 := by
  by_cases hc : name ∈ st.configuredNames <;>
    simp [get_logger, hc, countKey_setKey] <;> omega

theorem get_logger_countConfigured (st : LogState) (env : Option String) (name : String)
    (a : GetLoggerArgs) (h : st.configuredNames.count name ≤ 1) :
    (get_logger st env name a).2.configuredNames.count name ≤ 1 := by
  by_cases hc : name ∈ st.configuredNames
  · simpa [get_logger, hc] using h
  · have h0 : st.configuredNames.count name = 0 := List.count_eq_zero.mpr hc
    simp [get_logger, hc, h0]

/-- The cached path of `get_logger` (src/logging_core/logger.py lines
61-64): a cached name returns the registry object with only its level
updated, and re-stores it. -/
theorem get_logger_cached_eq (st : LogState) (env : Option String) (name : String)
    (a : GetLoggerArgs) (lg : Logger) (hmem : name ∈ st.configuredNames)
    (hlg : lookupKey st.registry name = some lg) :
    get_logger st env name a
      = ({ lg with level := resolveLevel env a.level },
         { st with registry := setKey st.registry name ({ lg with level := resolveLevel env a.level }) }) := by
  simp [get_logger, hmem, getLoggerObj, hlg]

/-- C3: calling `get_logger` twice with the same name returns the cached
logger object the second time (the registry entry, identical up to the
`setLevel` update), attaches no additional handlers, keeps the returned
object as the single registry entry for the name, and leaves both the
registry and the configured-name cache with at most one entry per name. -/
theorem claim_C3 : ∀ (st : LogState) (env1 env2 : Option String) (name : String)
    (a1 a2 : GetLoggerArgs),
    (get_logger (get_logger st env1 name a1).2 env2 name a2).1
      = { (get_logger st env1 name a1).1 with level := resolveLevel env2 a2.level } ∧
    (get_logger (get_logger st env1 name a1).2 env2 name a2).1.handlers
      = (get_logger st env1 name a1).1.handlers ∧
    lookupKey (get_logger st env1 name a1).2.registry name
      = some (get_logger st env1 name a1).1 ∧
    lookupKey (get_logger (get_logger st env1 name a1).2 env2 name a2).2.registry name
      = some (get_logger (get_logger st env1 name a1).2 env2 name a2).1 ∧
    (countKey st.registry name ≤ 1 →
      countKey (get_logger (get_logger st env1 name a1).2 env2 name a2).2.registry name ≤ 1) ∧
    (st.configuredNames.count name ≤ 1 →
      (get_logger (get_logger st env1 name a1).2 env2 name a2).2.configuredNames.count name ≤ 1) := by
  intro st env1 env2 name a1 a2
  have hmem := get_logger_mem_configured st env1 name a1
  have hself := get_logger_lookup_self st env1 name a1
  have hcall2 := get_logger_cached_eq (get_logger st env1 name a1).2 env2 name a2
    (get_logger st env1 name a1).1 hmem hself
  refine ⟨?_, ?_, hself, get_logger_lookup_self _ _ _ _, ?_, ?_⟩
  · rw [hcall2]
  · rw [hcall2]
  · intro h
    exact get_logger_countKey _ env2 _ a2 (get_logger_countKey _ env1 _ a1 h)
  · intro h
    exact get_logger_countConfigured _ env2 _ a2 (get_logger_countConfigured _ env1 _ a1 h)

theorem claim_C3_witness :
    (get_logger (get_logger ⟨[], []⟩ none "x" defaultArgs).2 none "x" defaultArgs).1.handlers
      = (get_logger ⟨[], []⟩ none "x" defaultArgs).1.handlers ∧
    countKey (get_logger (get_logger ⟨[], []⟩ none "x" defaultArgs).2
      none "x" defaultArgs).2.registry "x" ≤ 1 ∧
    (get_logger (get_logger ⟨[], []⟩ none "x" defaultArgs).2
      none "x" defaultArgs).2.configuredNames.count "x" ≤ 1 :=
  ⟨(claim_C3 ⟨[], []⟩ none none "x" defaultArgs defaultArgs).2.1,
   (claim_C3 ⟨[], []⟩ none none "x" defaultArgs defaultArgs).2.2.2.2.1 (by decide),
   (claim_C3 ⟨[], []⟩ none none "x" defaultArgs defaultArgs).2.2.2.2.2 (by decide)⟩

/-- C4: a `get_logger` lookup on a cached name returns the cached logger
with its minimum severity level updated to the newly resolved level, and
changes nothing else: the handlers (hence directory, filename, rotation
threshold, backup count, console and JSON format choices fixed at first
creation) are untouched whatever options the later lookup passes, the
configured-name cache is unchanged, and no other registry entry moves. -/
theorem claim_C4 : ∀ (st : LogState) (env : Option String) (name : String)
    (a : GetLoggerArgs) (lg : Logger),
    name ∈ st.configuredNames →
    lookupKey st.registry name = some lg →
    (get_logger st env name a).1 = { lg with level := resolveLevel env a.level } ∧
    (get_logger st env name a).1.handlers = lg.handlers ∧
    (get_logger st env name a).2.configuredNames = st.configuredNames ∧
    lookupKey (get_logger st env name a).2.registry name
      = some { lg with level := resolveLevel env a.level } ∧
    (∀ m, m ≠ name →
      lookupKey (get_logger st env name a).2.registry m = lookupKey st.registry m) := by
  intro st env name a lg hmem hlg
  have hc := get_logger_cached_eq st env name a lg hmem hlg
  refine ⟨?_, ?_, ?_, ?_, ?_⟩
  · rw [hc]
  · rw [hc]
  · rw [hc]
  · rw [hc]
    exact lookupKey_setKey_self _ _ _
  · intro m hm
    rw [hc]
    exact lookupKey_setKey_ne _ _ _ _ hm

theorem claim_C4_witness :
    (get_logger (get_logger ⟨[], []⟩ none "x" defaultArgs).2 (some "ERROR") "x"
      { defaultArgs with json_format := true, log_dir := "other" }).1
      = { loggerX with level := 40 } ∧
    (get_logger (get_logger ⟨[], []⟩ none "x" defaultArgs).2 (some "ERROR") "x"
      { defaultArgs with json_format := true, log_dir := "other" }).1.handlers
      = loggerX.handlers := by
  have h := claim_C4 (get_logger ⟨[], []⟩ none "x" defaultArgs).2 (some "ERROR") "x"
    { defaultArgs with json_format := true, log_dir := "other" } loggerX
    (by decide) (by decide)
  exact ⟨h.1, h.2.1⟩
